import Mathlib

/-!
Verification of the mycoach source-reconciliation and coaching layers.

This file gives a shallow embedding, in Lean 4, of the parts of the
repository that the specification's claims concern:

* `src/mycoach/sources/merger.py` — the Garmin/Hevy cross-source merger
  (`merge_garmin_hevy`, `_find_overlapping_garmin`);
* `src/mycoach/sources/hevy/csv_parser.py` — the Hevy CSV parser
  (`parse_hevy_csv` and its helper parsers);
* `src/mycoach/sources/hevy/mappers.py` — the CSV import
  (`import_hevy_workouts`, `_workout_exists`, `_compute_duration`);
* `src/mycoach/coaching/engine.py` and `src/mycoach/coaching/context.py` —
  the coaching engine's retry/logging flow and the planned-session linkage.

Modelling conventions: the database is a list of records; `datetime`
values are integers (seconds); Python `float` columns are rationals;
fallible steps return `Option`/`Except`; external effects (the LLM) are
oracles passed as function arguments; `session.add`/`delete`/attribute
assignment become pure list transformations.
-/

/-! ## Data model (`models/activity.py`) -/

/-- Embedding of the `Activity` ORM row. `start_time`/`end_time`/`created_at`
are seconds; Python `float` columns are rationals. -/
structure Activity where
  id : Int
  user_id : Int
  sport : String
  title : String
  start_time : Int
  end_time : Option Int
  duration_minutes : Option Int
  avg_hr : Option Int
  max_hr : Option Int
  calories : Option Int
  hr_zones : Option String
  training_effect_aerobic : Option Rat
  training_effect_anaerobic : Option Rat
  data_source : String
  garmin_activity_id : Option String
  notes : Option String
  created_at : Int
  deriving DecidableEq, Repr

/-! ## Cross-source merger (`sources/merger.py`) -/

/-- `OVERLAP_TOLERANCE = timedelta(minutes=30)`, in seconds. -/
def OVERLAP_TOLERANCE : Int := 30 * 60

/-- Embedding of the `MergeResult` dataclass. -/
structure MergeResult where
  merged : Nat
  errors : Option (List String)
  deriving DecidableEq, Repr

/-- The hevy-side filter of `merge_garmin_hevy`: user, sport `"gym"`,
`data_source == "hevy"`. -/
def isHevyGym (uid : Int) (a : Activity) : Bool :=
  a.user_id == uid && a.sport == "gym" && a.data_source == "hevy"

/-- The garmin-side filter of `merge_garmin_hevy`: user, sport `"gym"`,
`data_source == "garmin"`. -/
def isGarminGym (uid : Int) (a : Activity) : Bool :=
  a.user_id == uid && a.sport == "gym" && a.data_source == "garmin"

/-- Effective end of an activity, as computed inline in
`_find_overlapping_garmin`: the explicit `end_time` when present, else
`start + duration` when `duration_minutes` is truthy (non-`None`, non-zero),
else `start + OVERLAP_TOLERANCE`. -/
def effectiveEnd (a : Activity) : Int :=
  match a.end_time with
  | some e => e
  | none =>
    match a.duration_minutes with
    | some d => if d == 0 then a.start_time + OVERLAP_TOLERANCE else a.start_time + 60 * d
    | none => a.start_time + OVERLAP_TOLERANCE

/-- The overlap window computed in the loop body of `_find_overlapping_garmin`:
`overlap_start = max(hevy_start, garmin_start)` and
`overlap_end = min(hevy_end + OVERLAP_TOLERANCE, garmin_end + OVERLAP_TOLERANCE)`. -/
def overlapWindow (h g : Activity) : Int × Int :=
  (max h.start_time g.start_time,
   min (effectiveEnd h + OVERLAP_TOLERANCE) (effectiveEnd g + OVERLAP_TOLERANCE))

/-- Signed overlap length in seconds between the two window ends; the code
treats a candidate as matchable only when this is positive. -/
def overlapSecs (h g : Activity) : Int :=
  (overlapWindow h g).2 - (overlapWindow h g).1

/-- One iteration of the candidate scan in `_find_overlapping_garmin`:
skip already-matched garmin activities, and adopt `g` as the new best when
the window is non-empty and its length strictly exceeds the best so far. -/
def findStep (h : Activity) (matched : List Int) (acc : Option Activity × Int)
    (g : Activity) : Option Activity × Int :=
  if g.id ∈ matched then acc
  else
    let os := (overlapWindow h g).1
    let oe := (overlapWindow h g).2
    if os ≤ oe then
      if acc.2 < oe - os then (some g, oe - os) else acc
    else acc

/-- Embedding of `_find_overlapping_garmin`: fold the candidate scan over the
garmin list with initial best `(None, 0.0)` and return the best match. -/
def findOverlappingGarmin (h : Activity) (garmin : List Activity)
    (matched : List Int) : Option Activity :=
  (garmin.foldl (findStep h matched) (none, 0)).1

/-- Field copy performed on the winning hevy activity in the body of
`merge_garmin_hevy` (lines 101-112): overlay garmin biometrics, re-tag the
provenance to `"merged"`, and backfill `duration_minutes` only when the hevy
value is `None`. -/
def mergeFields (h g : Activity) : Activity :=
  { h with
    avg_hr := g.avg_hr
    max_hr := g.max_hr
    calories := g.calories
    hr_zones := g.hr_zones
    training_effect_aerobic := g.training_effect_aerobic
    training_effect_anaerobic := g.training_effect_anaerobic
    garmin_activity_id := g.garmin_activity_id
    data_source := "merged"
    duration_minutes :=
      match h.duration_minutes with
      | none => g.duration_minutes
      | some d => some d }

/-- Embedding of `session.delete(match)`: remove the row with the matched id. -/
def deleteActivity (db : List Activity) (gid : Int) : List Activity :=
  db.filter (fun a => a.id != gid)

/-- Embedding of the attribute writes onto the hevy row: replace the row with
id `hid` by its merged version. -/
def updateActivity (db : List Activity) (hid : Int) (g : Activity) : List Activity :=
  db.map (fun a => if a.id == hid then mergeFields a g else a)

/-- Per-match database effect of `merge_garmin_hevy`: the garmin row is
deleted first (to free its unique `garmin_activity_id`), then the merged
fields are written onto the hevy row. -/
def mergeStep (db : List Activity) (h g : Activity) : List Activity :=
  updateActivity (deleteActivity db g.id) h.id g

/-- The main loop of `merge_garmin_hevy` over the hevy activities, carrying
the database, the `matched_garmin_ids` set and the merged count. -/
def mergeLoop (garmin : List Activity) (db : List Activity) (matched : List Int)
    (n : Nat) : List Activity → List Activity × List Int × Nat
  | [] => (db, matched, n)
  | h :: rest =>
    match findOverlappingGarmin h garmin matched with
    | none => mergeLoop garmin db matched n rest
    | some g => mergeLoop garmin (mergeStep db h g) (g.id :: matched) (n + 1) rest

/-- Embedding of `merge_garmin_hevy`: select both source sets, return early
when either is empty, otherwise run the matching loop. The function never
appends to its `errors` list, so `errors` is always `none`. -/
def merge_garmin_hevy (db : List Activity) (uid : Int) : List Activity × MergeResult :=
  let hevy := db.filter (isHevyGym uid)
  if hevy.isEmpty then (db, ⟨0, none⟩)
  else
    let garmin := db.filter (isGarminGym uid)
    if garmin.isEmpty then (db, ⟨0, none⟩)
    else
      let r := mergeLoop garmin db [] 0 hevy
      (r.1, ⟨r.2.2, none⟩)

/-! ## Interval language and the spec's expansion

`effInterval`/`expandEnd`/`intervalOverlapLen` express the code's overlap
computation in interval terms; `expandBoth` follows the specification's
glossary ("a time range widened by a fixed tolerance on both ends") for
comparison with the code. -/

/-- Effective interval `[start, end]` of an activity (code's fallbacks). -/
def effInterval (a : Activity) : Int × Int := (a.start_time, effectiveEnd a)

/-- Widen an interval only at its end by the tolerance (what the code does). -/
def expandEnd (i : Int × Int) : Int × Int := (i.1, i.2 + OVERLAP_TOLERANCE)

/-- Modelled from the spec: "a time range widened by a fixed tolerance on both
ends" — start moved earlier and end moved later. -/
def expandBoth (i : Int × Int) : Int × Int :=
  (i.1 - OVERLAP_TOLERANCE, i.2 + OVERLAP_TOLERANCE)

/-- Signed overlap length of two intervals. -/
def intervalOverlapLen (i j : Int × Int) : Int := min i.2 j.2 - max i.1 j.1

/-- Modelled from the spec: overlap in seconds between the two activities'
intervals when each is widened by the tolerance on both ends. -/
def specExpandedOverlapSecs (h g : Activity) : Int :=
  intervalOverlapLen (expandBoth (effInterval h)) (expandBoth (effInterval g))

/-! ## Characterization of the candidate scan -/

theorem findStep_mono (h : Activity) (matched : List Int)
    (acc : Option Activity × Int) (g : Activity) :
    acc.2 ≤ (findStep h matched acc g).2 := by
  unfold findStep
  by_cases hm : g.id ∈ matched
  · simp [hm]
  · simp only [hm, if_neg, not_false_iff]
    by_cases h1 : (overlapWindow h g).1 ≤ (overlapWindow h g).2
    · by_cases h2 : acc.2 < (overlapWindow h g).2 - (overlapWindow h g).1
      · simp [h1, h2]; omega
      · simp [h1, h2]
    · simp [h1]

theorem findStep_bound (h : Activity) (matched : List Int)
    (acc : Option Activity × Int) (g : Activity) (h0 : 0 ≤ acc.2)
    (hm : g.id ∉ matched) :
    overlapSecs h g ≤ (findStep h matched acc g).2 := by
  unfold findStep overlapSecs
  simp only [hm, if_neg, not_false_iff]
  by_cases h1 : (overlapWindow h g).1 ≤ (overlapWindow h g).2
  · by_cases h2 : acc.2 < (overlapWindow h g).2 - (overlapWindow h g).1
    · simp [h1, h2]
    · simp [h1, h2]; omega
  · simp [h1]; omega

theorem findStep_cases (h : Activity) (matched : List Int)
    (acc : Option Activity × Int) (g : Activity) :
    findStep h matched acc g = acc ∨
    (g.id ∉ matched ∧ acc.2 < overlapSecs h g ∧
      findStep h matched acc g = (some g, overlapSecs h g)) := by
  by_cases hm : g.id ∈ matched
  · left; simp [findStep, hm]
  · by_cases h1 : (overlapWindow h g).1 ≤ (overlapWindow h g).2
    · by_cases h2 : acc.2 < (overlapWindow h g).2 - (overlapWindow h g).1
      · refine Or.inr ⟨hm, ?_, ?_⟩
        · simpa [overlapSecs] using h2
        · simp [findStep, hm, h1, h2, overlapSecs]
      · left; simp [findStep, hm, h1, h2]
    · left; simp [findStep, hm, h1]

/-- Full specification of the fold inside `_find_overlapping_garmin`:
the running best never decreases, bounds every considered candidate's
overlap, and the final best is either the initial accumulator or the
first candidate attaining the maximal (positive) overlap. -/
theorem findFold_spec (h : Activity) (matched : List Int) :
    ∀ (gs : List Activity) (acc : Option Activity × Int), 0 ≤ acc.2 →
    acc.2 ≤ (gs.foldl (findStep h matched) acc).2 ∧
    (∀ g ∈ gs, g.id ∉ matched →
      overlapSecs h g ≤ (gs.foldl (findStep h matched) acc).2) ∧
    (gs.foldl (findStep h matched) acc = acc ∨
      ∃ pre g post, gs = pre ++ g :: post ∧ g.id ∉ matched ∧
        (gs.foldl (findStep h matched) acc).1 = some g ∧
        (gs.foldl (findStep h matched) acc).2 = overlapSecs h g ∧
        acc.2 < overlapSecs h g ∧
        ∀ g2 ∈ pre, g2.id ∉ matched → overlapSecs h g2 < overlapSecs h g) := by
  intro gs
  induction gs with
  | nil => intro acc h0; refine ⟨le_refl _, by simp, Or.inl rfl⟩
  | cons x t ih =>
    intro acc h0
    have hmono := findStep_mono h matched acc x
    have h0x : 0 ≤ (findStep h matched acc x).2 := le_trans h0 hmono
    obtain ⟨ihA, ihB, ihC⟩ := ih (findStep h matched acc x) h0x
    simp only [List.foldl_cons]
    refine ⟨le_trans hmono ihA, ?_, ?_⟩
    · intro g hg hgm
      rw [List.mem_cons] at hg
      rcases hg with rfl | hg
      · exact le_trans (findStep_bound h matched acc g h0 hgm) ihA
      · exact ihB g hg hgm
    · rcases ihC with hEq | ⟨pre, g, post, hdec, hgm, hr1, hr2, hlt, hpre⟩
      · rcases findStep_cases h matched acc x with hx | ⟨hxm, hxlt, hxeq⟩
        · exact Or.inl (by rw [hEq, hx])
        · refine Or.inr ⟨[], x, t, by simp, hxm, ?_, ?_, hxlt, by simp⟩
          · rw [hEq, hxeq]
          · rw [hEq, hxeq]
      · refine Or.inr ⟨x :: pre, g, post, by simp [hdec], hgm, hr1, hr2, ?_, ?_⟩
        · exact lt_of_le_of_lt hmono hlt
        · intro g2 hg2 hg2m
          rw [List.mem_cons] at hg2
          rcases hg2 with rfl | hg2
          · exact lt_of_le_of_lt (findStep_bound h matched acc g2 h0 hg2m) hlt
          · exact hpre g2 hg2 hg2m

/-- When the scan selects a garmin activity, that activity is unconsumed, has
strictly positive overlap, is overlap-maximal among all unconsumed candidates,
and strictly beats every unconsumed candidate that precedes it in iteration
order (first-found tie-break). -/
theorem find_some_spec (h : Activity) (garmin : List Activity) (matched : List Int)
    (g : Activity) (hfind : findOverlappingGarmin h garmin matched = some g) :
    g.id ∉ matched ∧ 0 < overlapSecs h g ∧
    (∀ g2 ∈ garmin, g2.id ∉ matched → overlapSecs h g2 ≤ overlapSecs h g) ∧
    ∃ pre post, garmin = pre ++ g :: post ∧
      ∀ g2 ∈ pre, g2.id ∉ matched → overlapSecs h g2 < overlapSecs h g := by
  obtain ⟨hA, hB, hC⟩ := findFold_spec h matched garmin (none, 0) (le_refl 0)
  unfold findOverlappingGarmin at hfind
  rcases hC with hEq | ⟨pre, gb, post, hdec, hgm, hr1, hr2, hlt, hpre⟩
  · rw [hEq] at hfind; exact absurd hfind (by simp)
  · rw [hfind] at hr1
    have hgg : g = gb := Option.some.inj hr1
    subst hgg
    refine ⟨hgm, hlt, ?_, pre, post, hdec, hpre⟩
    intro g2 hg2 hg2m
    have := hB g2 hg2 hg2m
    omega

/-- The scan returns no match precisely when every candidate is either already
consumed or has non-positive overlap with the manual activity. -/
theorem find_none_iff (h : Activity) (garmin : List Activity) (matched : List Int) :
    findOverlappingGarmin h garmin matched = none ↔
    ∀ g ∈ garmin, g.id ∈ matched ∨ overlapSecs h g ≤ 0 := by
  obtain ⟨hA, hB, hC⟩ := findFold_spec h matched garmin (none, 0) (le_refl 0)
  unfold findOverlappingGarmin
  constructor
  · intro hnone g hg
    by_cases hgm : g.id ∈ matched
    · exact Or.inl hgm
    · refine Or.inr ?_
      rcases hC with hEq | ⟨pre, gb, post, hdec, hgm2, hr1, hr2, hlt, hpre⟩
      · have h2 : (garmin.foldl (findStep h matched) (none, 0)).2 = 0 := by
          rw [hEq]
        have := hB g hg hgm
        omega
      · rw [hnone] at hr1; exact absurd hr1 (by simp)
  · intro hall
    rcases hC with hEq | ⟨pre, gb, post, hdec, hgm, hr1, hr2, hlt, hpre⟩
    · rw [hEq]
    · have hmem : gb ∈ garmin := by rw [hdec]; simp
      rcases hall gb hmem with hin | hle
      · exact absurd hin hgm
      · omega

/-! ## Concrete activities used in counterexamples and witnesses -/

/-- A baseline activity record; counterexample/witness records override fields. -/
def actBase : Activity :=
  { id := 0, user_id := 1, sport := "gym", title := "Workout", start_time := 0,
    end_time := none, duration_minutes := none, avg_hr := none, max_hr := none,
    calories := none, hr_zones := none, training_effect_aerobic := none,
    training_effect_anaerobic := none, data_source := "hevy",
    garmin_activity_id := none, notes := none, created_at := 0 }

/-- Hevy activity 00:00-01:00 for the C3 counterexample. -/
def hevyCtr3 : Activity := { actBase with id := 1, end_time := some 3600 }

/-- Garmin activity 01:50-02:00 for the C3 counterexample: its start is 50
minutes after the hevy end, outside one tolerance but inside two. -/
def garminCtr3 : Activity :=
  { actBase with
    id := 2
    start_time := 6600
    end_time := some 7200
    data_source := "garmin" }

/-- Hevy activity 00:00-00:30 for the C2 counterexample. -/
def hevyCtr2 : Activity := { actBase with id := 3, end_time := some 1800 }

/-- Garmin activity 01:15-01:30 for the C2 counterexample: 45 minutes after
the hevy end, so the both-ends-expanded intervals overlap by 900 s but the
code computes a negative overlap. -/
def garminCtr2 : Activity :=
  { actBase with
    id := 4
    start_time := 4500
    end_time := some 5400
    data_source := "garmin" }

/-- Hevy activity 00:00-01:00 for the tie-break witness. -/
def hevyEx : Activity := { actBase with id := 5, end_time := some 3600 }

/-- Garmin candidate whose (end-expanded) overlap with `hevyEx` is 300 s. -/
def garminEx300 : Activity :=
  { actBase with
    id := 6
    start_time := 5100
    end_time := some 5400
    data_source := "garmin"
    garmin_activity_id := some "g300" }

/-- Garmin candidate whose (end-expanded) overlap with `hevyEx` is 1500 s. -/
def garminEx1500 : Activity :=
  { actBase with
    id := 7
    start_time := 3900
    end_time := some 4500
    data_source := "garmin"
    garmin_activity_id := some "g1500" }

/-! ## C3 — how the intervals are expanded before the overlap test -/

/-- C3 counterexample: the claim says each effective interval is widened by
the 30-minute tolerance on both ends (start earlier, end later) before the
overlap is computed. On these concrete activities the both-ends-expanded
intervals overlap by 600 s, yet the code computes overlap -1200 s and finds
no match: the code never moves the start earlier. -/
theorem expandBoth_counterexample :
    overlapSecs hevyCtr3 garminCtr3 ≠ specExpandedOverlapSecs hevyCtr3 garminCtr3 ∧
    specExpandedOverlapSecs hevyCtr3 garminCtr3 = 600 ∧
    overlapSecs hevyCtr3 garminCtr3 = -1200 ∧
    findOverlappingGarmin hevyCtr3 [garminCtr3] [] = none := by
  refine ⟨by decide, by decide, by decide, by decide⟩

/-- C3 (amended): before the overlap test, each activity's effective interval
`[start, end]` — with `end` falling back to `start + duration` when there is
no explicit end and the duration is known and non-zero, and to
`start + tolerance` when neither is known — is widened by the 30-minute
tolerance at its end only; the start is not moved; the overlap is then
computed between the two end-extended intervals. -/
theorem merger_overlap_is_end_expanded (h g : Activity) :
    overlapSecs h g =
      intervalOverlapLen (expandEnd (effInterval h)) (expandEnd (effInterval g)) ∧
    (expandEnd (effInterval h)).1 = h.start_time ∧
    (∀ e, h.end_time = some e → (effInterval h).2 = e) ∧
    (h.end_time = none → ∀ d, h.duration_minutes = some d → d ≠ 0 →
      (effInterval h).2 = h.start_time + 60 * d) ∧
    (h.end_time = none → h.duration_minutes = none →
      (effInterval h).2 = h.start_time + OVERLAP_TOLERANCE) ∧
    (h.end_time = none → h.duration_minutes = some 0 →
      (effInterval h).2 = h.start_time + OVERLAP_TOLERANCE) := by
  refine ⟨rfl, rfl, ?_, ?_, ?_, ?_⟩
  · intro e he; simp [effInterval, effectiveEnd, he]
  · intro hnone d hd hd0; simp [effInterval, effectiveEnd, hnone, hd, hd0]
  · intro hnone hdnone; simp [effInterval, effectiveEnd, hnone, hdnone]
  · intro hnone hd0; simp [effInterval, effectiveEnd, hnone, hd0]

/-- Witness for `merger_overlap_is_end_expanded` at concrete activities. -/
theorem merger_overlap_is_end_expanded_witness :
    (effInterval hevyCtr3).2 = 3600 ∧
    (effInterval actBase).2 = actBase.start_time + OVERLAP_TOLERANCE ∧
    overlapSecs hevyCtr3 garminCtr3 =
      intervalOverlapLen (expandEnd (effInterval hevyCtr3))
        (expandEnd (effInterval garminCtr3)) := by
  have h1 := merger_overlap_is_end_expanded hevyCtr3 garminCtr3
  have h2 := merger_overlap_is_end_expanded actBase garminCtr3
  exact ⟨h1.2.2.1 3600 rfl, h2.2.2.2.2.1 rfl rfl, h1.1⟩

/-! ## C2 — which candidate is selected -/

/-- C2 counterexample: the claim says the selected match is the unconsumed
device activity whose expanded interval (per the spec, widened on both ends)
has the largest positive overlap with the manual activity's expanded
interval. Here the single unconsumed candidate has a both-ends-expanded
overlap of 900 s — so under the claim it must be selected — yet the code
selects nothing. -/
theorem best_overlap_counterexample :
    specExpandedOverlapSecs hevyCtr2 garminCtr2 = 900 ∧
    findOverlappingGarmin hevyCtr2 [garminCtr2] [] = none := by
  refine ⟨by decide, by decide⟩

/-- C2 (amended): with each interval expanded at its end only, the selected
match is the not-yet-consumed device activity with the largest strictly
positive overlap in seconds; zero or negative overlap is never a match (when
every unconsumed candidate has non-positive overlap, none is selected); ties
go to the first-found candidate in iteration order; and a device activity
that is not selected stays in the database un-merged and un-deleted. -/
theorem merger_selects_largest_overlap (h : Activity) (garmin : List Activity)
    (matched : List Int) (db : List Activity) :
    (∀ g, findOverlappingGarmin h garmin matched = some g →
      (g.id ∉ matched ∧ 0 < overlapSecs h g ∧
        (∀ g2 ∈ garmin, g2.id ∉ matched → overlapSecs h g2 ≤ overlapSecs h g) ∧
        ∃ pre post, garmin = pre ++ g :: post ∧
          ∀ g2 ∈ pre, g2.id ∉ matched → overlapSecs h g2 < overlapSecs h g) ∧
      (∀ a ∈ db, a.id ≠ g.id → a.id ≠ h.id → a ∈ mergeStep db h g)) ∧
    (findOverlappingGarmin h garmin matched = none ↔
      ∀ g ∈ garmin, g.id ∈ matched ∨ overlapSecs h g ≤ 0) := by
  refine ⟨?_, find_none_iff h garmin matched⟩
  intro g hfind
  refine ⟨find_some_spec h garmin matched g hfind, ?_⟩
  intro a ha hag hah
  have hmem : a ∈ deleteActivity db g.id := by
    simp only [deleteActivity, List.mem_filter, bne_iff_ne, ne_eq]
    exact ⟨ha, hag⟩
  simp only [mergeStep, updateActivity, List.mem_map]
  refine ⟨a, hmem, ?_⟩
  simp [beq_iff_eq, hah]

/-- Witness for `merger_selects_largest_overlap`: the spec's own 300 s /
1500 s example. The 1500 s candidate is selected; the 300 s candidate stays
in the database un-deleted with its fields (hence its provenance) intact. -/
theorem merger_selects_largest_overlap_witness :
    0 < overlapSecs hevyEx garminEx1500 ∧
    overlapSecs hevyEx garminEx300 ≤ overlapSecs hevyEx garminEx1500 ∧
    garminEx300 ∈ mergeStep [hevyEx, garminEx300, garminEx1500] hevyEx garminEx1500 := by
  have hth := merger_selects_largest_overlap hevyEx [garminEx300, garminEx1500] []
    [hevyEx, garminEx300, garminEx1500]
  have hfind : findOverlappingGarmin hevyEx [garminEx300, garminEx1500] [] =
      some garminEx1500 := by decide
  have hc := hth.1 garminEx1500 hfind
  refine ⟨hc.1.2.1, ?_, ?_⟩
  · exact hc.1.2.2.1 garminEx300 (by decide) (by decide)
  · exact hc.2 garminEx300 (by decide) (by decide) (by decide)

/-! ## C4 — what a match does to the database -/

/-- C4 (confirmed): on a match, the garmin row is deleted first and the
merged fields are written afterwards (`mergeStep` factors as write after
delete); the hevy row receives the garmin activity's avg/max heart rate,
calories, HR-zone blob, both training-effect scores and external device id;
its provenance becomes `"merged"`; its duration is backfilled from the
garmin duration only when the hevy duration is absent; and no row with the
garmin activity's id remains afterwards. -/
theorem merge_copies_garmin_overlay (db : List Activity) (h g a : Activity)
    (ha : a ∈ db) (haid : a.id = h.id) (hag : a.id ≠ g.id) :
    mergeStep db h g = updateActivity (deleteActivity db g.id) h.id g ∧
    mergeFields a g ∈ mergeStep db h g ∧
    (mergeFields a g).avg_hr = g.avg_hr ∧
    (mergeFields a g).max_hr = g.max_hr ∧
    (mergeFields a g).calories = g.calories ∧
    (mergeFields a g).hr_zones = g.hr_zones ∧
    (mergeFields a g).training_effect_aerobic = g.training_effect_aerobic ∧
    (mergeFields a g).training_effect_anaerobic = g.training_effect_anaerobic ∧
    (mergeFields a g).garmin_activity_id = g.garmin_activity_id ∧
    (mergeFields a g).data_source = "merged" ∧
    (a.duration_minutes = none →
      (mergeFields a g).duration_minutes = g.duration_minutes) ∧
    (∀ d, a.duration_minutes = some d →
      (mergeFields a g).duration_minutes = some d) ∧
    (∀ b ∈ mergeStep db h g, b.id ≠ g.id) := by
  have hmem : a ∈ deleteActivity db g.id := by
    simp only [deleteActivity, List.mem_filter, bne_iff_ne, ne_eq]
    exact ⟨ha, hag⟩
  refine ⟨rfl, ?_, rfl, rfl, rfl, rfl, rfl, rfl, rfl, rfl, ?_, ?_, ?_⟩
  · simp only [mergeStep, updateActivity, List.mem_map]
    exact ⟨a, hmem, by simp [beq_iff_eq, haid]⟩
  · intro hdn; simp [mergeFields, hdn]
  · intro d hd; simp [mergeFields, hd]
  · intro b hb
    simp only [mergeStep, updateActivity, List.mem_map] at hb
    obtain ⟨c, hc, hcb⟩ := hb
    have hcg : c.id ≠ g.id := by
      simp only [deleteActivity, List.mem_filter, bne_iff_ne, ne_eq] at hc
      exact hc.2
    by_cases hch : c.id = h.id
    · rw [← hcb]; simp [beq_iff_eq, hch]
      simpa [mergeFields] using hch ▸ hcg
    · rw [← hcb]; simpa [beq_iff_eq, hch] using hcg

/-- Witness for `merge_copies_garmin_overlay`: a two-row database holding the
tie-break example's hevy activity and the selected garmin activity. -/
theorem merge_copies_garmin_overlay_witness :
    (mergeFields hevyEx garminEx1500).garmin_activity_id = some "g1500" ∧
    (mergeFields hevyEx garminEx1500).data_source = "merged" ∧
    mergeFields hevyEx garminEx1500 ∈
      mergeStep [hevyEx, garminEx1500] hevyEx garminEx1500 ∧
    (∀ b ∈ mergeStep [hevyEx, garminEx1500] hevyEx garminEx1500,
      b.id ≠ garminEx1500.id) := by
  have hth := merge_copies_garmin_overlay [hevyEx, garminEx1500]
    hevyEx garminEx1500 hevyEx (by decide) rfl (by decide)
  exact ⟨hth.2.2.2.2.2.2.2.2.1, hth.2.2.2.2.2.2.2.2.2.1, hth.2.1,
    hth.2.2.2.2.2.2.2.2.2.2.2.2⟩

/-! ## C10 — frame condition of a merge -/

/-- C10 (confirmed): the merged hevy activity keeps its id, user, sport,
title, start time, end time and notes unchanged; the record-update equation
shows that only the biometric overlay (avg/max HR, calories, HR zones, both
training-effect scores), the external device identifier, the provenance tag
and — when previously absent — the duration are modified. -/
theorem merge_preserves_identity_fields (h g : Activity) :
    (mergeFields h g).id = h.id ∧
    (mergeFields h g).user_id = h.user_id ∧
    (mergeFields h g).sport = h.sport ∧
    (mergeFields h g).title = h.title ∧
    (mergeFields h g).start_time = h.start_time ∧
    (mergeFields h g).end_time = h.end_time ∧
    (mergeFields h g).notes = h.notes ∧
    mergeFields h g = { h with
      avg_hr := g.avg_hr
      max_hr := g.max_hr
      calories := g.calories
      hr_zones := g.hr_zones
      training_effect_aerobic := g.training_effect_aerobic
      training_effect_anaerobic := g.training_effect_anaerobic
      garmin_activity_id := g.garmin_activity_id
      data_source := "merged"
      duration_minutes :=
        if h.duration_minutes.isNone then g.duration_minutes
        else h.duration_minutes } := by
  refine ⟨rfl, rfl, rfl, rfl, rfl, rfl, rfl, ?_⟩
  cases hd : h.duration_minutes <;> simp [mergeFields, hd]

/-! ## C1 — idempotence of the merger -/

theorem mergeFields_not_hevy (uid : Int) (c g : Activity) :
    isHevyGym uid (mergeFields c g) = false := by
  have hds : (mergeFields c g).data_source = "merged" := rfl
  simp [isHevyGym, hds]

theorem mergeFields_not_garmin (uid : Int) (c g : Activity) :
    isGarminGym uid (mergeFields c g) = false := by
  have hds : (mergeFields c g).data_source = "merged" := rfl
  simp [isGarminGym, hds]

/-- Membership in the post-match database: every row comes from a pre-match
row that is not the deleted garmin row, either merged (when it carries the
hevy id) or untouched. -/
theorem mem_mergeStep (db : List Activity) (h g a : Activity)
    (ha : a ∈ mergeStep db h g) :
    ∃ c ∈ db, c.id ≠ g.id ∧
      ((c.id = h.id ∧ a = mergeFields c g) ∨ (c.id ≠ h.id ∧ a = c)) := by
  simp only [mergeStep, updateActivity, List.mem_map] at ha
  obtain ⟨c, hc, hca⟩ := ha
  simp only [deleteActivity, List.mem_filter, bne_iff_ne, ne_eq] at hc
  refine ⟨c, hc.1, hc.2, ?_⟩
  by_cases hch : c.id = h.id
  · exact Or.inl ⟨hch, by rw [← hca]; simp [beq_iff_eq, hch]⟩
  · exact Or.inr ⟨hch, by rw [← hca]; simp [beq_iff_eq, hch]⟩

/-- When no remaining hevy activity finds a match, the loop changes nothing. -/
theorem mergeLoop_noop (garmin db : List Activity) (matched : List Int) (n : Nat) :
    ∀ hs : List Activity,
    (∀ h ∈ hs, findOverlappingGarmin h garmin matched = none) →
    mergeLoop garmin db matched n hs = (db, matched, n) := by
  intro hs
  induction hs with
  | nil => intro _; rfl
  | cons h t ih =>
    intro hall
    have hh := hall h (List.mem_cons_self h t)
    simp only [mergeLoop, hh]
    exact ih fun x hx => hall x (List.mem_cons_of_mem h hx)

/-- Loop invariant of `merge_garmin_hevy`: the matched set only grows; every
hevy-gym row of the final database has, for each garmin candidate, either a
matched id or a non-positive overlap; and every garmin-gym row of the final
database is an untouched element of the garmin snapshot whose id was never
matched. -/
theorem mergeLoop_invariant (uid : Int) (garmin : List Activity) :
    ∀ (hs db : List Activity) (matched : List Int) (n : Nat),
    (∀ a ∈ db, isHevyGym uid a = true →
      a ∈ hs ∨ ∀ g ∈ garmin, g.id ∈ matched ∨ overlapSecs a g ≤ 0) →
    (∀ a ∈ db, isGarminGym uid a = true → a ∈ garmin ∧ a.id ∉ matched) →
    (∀ x ∈ matched, x ∈ (mergeLoop garmin db matched n hs).2.1) ∧
    (∀ a ∈ (mergeLoop garmin db matched n hs).1, isHevyGym uid a = true →
      ∀ g ∈ garmin,
        g.id ∈ (mergeLoop garmin db matched n hs).2.1 ∨ overlapSecs a g ≤ 0) ∧
    (∀ a ∈ (mergeLoop garmin db matched n hs).1, isGarminGym uid a = true →
      a ∈ garmin ∧ a.id ∉ (mergeLoop garmin db matched n hs).2.1) := by
  intro hs
  induction hs with
  | nil =>
    intro db matched n Hh Hg
    simp only [mergeLoop]
    refine ⟨fun x hx => hx, ?_, Hg⟩
    intro a ha hha
    rcases Hh a ha hha with hmem | hfact
    · exact absurd hmem (List.not_mem_nil a)
    · exact hfact
  | cons h t ih =>
    intro db matched n Hh Hg
    cases hfind : findOverlappingGarmin h garmin matched with
    | none =>
      simp only [mergeLoop, hfind]
      apply ih
      · intro a ha hha
        rcases Hh a ha hha with hmem | hfact
        · rw [List.mem_cons] at hmem
          rcases hmem with rfl | hmem
          · exact Or.inr ((find_none_iff a garmin matched).mp hfind)
          · exact Or.inl hmem
        · exact Or.inr hfact
      · exact Hg
    | some g0 =>
      simp only [mergeLoop, hfind]
      have Hh2 : ∀ a ∈ mergeStep db h g0, isHevyGym uid a = true →
          a ∈ t ∨ ∀ g ∈ garmin, g.id ∈ g0.id :: matched ∨ overlapSecs a g ≤ 0 := by
        intro a ha hha
        obtain ⟨c, hc, hcg, hcc⟩ := mem_mergeStep db h g0 a ha
        rcases hcc with ⟨hch, rfl⟩ | ⟨hch, rfl⟩
        · rw [mergeFields_not_hevy uid c g0] at hha
          exact absurd hha (by simp)
        · rcases Hh a hc hha with hmem | hfact
          · rw [List.mem_cons] at hmem
            rcases hmem with rfl | hmem
            · exact absurd rfl hch
            · exact Or.inl hmem
          · refine Or.inr fun g hg => ?_
            rcases hfact g hg with hin | hle
            · exact Or.inl (List.mem_cons_of_mem _ hin)
            · exact Or.inr hle
      have Hg2 : ∀ a ∈ mergeStep db h g0, isGarminGym uid a = true →
          a ∈ garmin ∧ a.id ∉ g0.id :: matched := by
        intro a ha hha
        obtain ⟨c, hc, hcg, hcc⟩ := mem_mergeStep db h g0 a ha
        rcases hcc with ⟨hch, rfl⟩ | ⟨hch, rfl⟩
        · rw [mergeFields_not_garmin uid c g0] at hha
          exact absurd hha (by simp)
        · obtain ⟨hga, hgm⟩ := Hg a hc hha
          refine ⟨hga, ?_⟩
          rw [List.mem_cons]
          rintro (hid | hid)
          · exact hcg hid
          · exact hgm hid
      obtain ⟨ihA, ihB, ihC⟩ := ih (mergeStep db h g0) (g0.id :: matched) (n + 1) Hh2 Hg2
      exact ⟨fun x hx => ihA x (List.mem_cons_of_mem _ hx), ihB, ihC⟩

/-- C1 (confirmed): running the merger twice in a row for the same user has
the same total effect on the database as running it once, and the second run
returns a merge count of zero (and no errors): every activity re-tagged
`"merged"` by the first run is excluded from the hevy source set, every
matched garmin activity has been deleted, and every surviving pair already
failed the positive-overlap test. -/
theorem merge_noop (s : List Activity) (uid : Int)
    (hnone : ∀ h ∈ s.filter (isHevyGym uid),
      findOverlappingGarmin h (s.filter (isGarminGym uid)) [] = none) :
    merge_garmin_hevy s uid = (s, ⟨0, none⟩) := by
  by_cases hhe : (s.filter (isHevyGym uid)).isEmpty
  · simp [merge_garmin_hevy, hhe]
  · by_cases hge : (s.filter (isGarminGym uid)).isEmpty
    · simp [merge_garmin_hevy, hhe, hge]
    · have hloop := mergeLoop_noop (s.filter (isGarminGym uid)) s [] 0
        (s.filter (isHevyGym uid)) hnone
      simp [merge_garmin_hevy, hhe, hge, hloop]

/-- C1 (confirmed): running the merger twice in a row for the same user has
the same total effect on the database as running it once, and the second run
returns a merge count of zero (and no errors): every activity re-tagged
`"merged"` by the first run is excluded from the hevy source set, every
matched garmin activity has been deleted, and every surviving pair already
failed the positive-overlap test. -/
theorem merger_idempotent (db : List Activity) (uid : Int) :
    merge_garmin_hevy (merge_garmin_hevy db uid).1 uid =
      ((merge_garmin_hevy db uid).1, ⟨0, none⟩) := by
  by_cases hhe : (db.filter (isHevyGym uid)).isEmpty
  · have h1 : merge_garmin_hevy db uid = (db, ⟨0, none⟩) := by
      simp [merge_garmin_hevy, hhe]
    rw [h1]
    exact h1
  · by_cases hge : (db.filter (isGarminGym uid)).isEmpty
    · have h1 : merge_garmin_hevy db uid = (db, ⟨0, none⟩) := by
        simp [merge_garmin_hevy, hhe, hge]
      rw [h1]
      exact h1
    · have h1 : (merge_garmin_hevy db uid).1 =
          (mergeLoop (db.filter (isGarminGym uid)) db [] 0
            (db.filter (isHevyGym uid))).1 := by
        simp [merge_garmin_hevy, hhe, hge]
      obtain ⟨invA, invB, invC⟩ := mergeLoop_invariant uid
        (db.filter (isGarminGym uid)) (db.filter (isHevyGym uid)) db [] 0
        (fun a ha hha => Or.inl (List.mem_filter.mpr ⟨ha, hha⟩))
        (fun a ha hha => ⟨List.mem_filter.mpr ⟨ha, hha⟩, List.not_mem_nil _⟩)
      have hnone : ∀ h ∈ (mergeLoop (db.filter (isGarminGym uid)) db [] 0
            (db.filter (isHevyGym uid))).1.filter (isHevyGym uid),
          findOverlappingGarmin h
            ((mergeLoop (db.filter (isGarminGym uid)) db [] 0
              (db.filter (isHevyGym uid))).1.filter (isGarminGym uid)) [] = none := by
        intro h hh
        rw [find_none_iff]
        intro g hg
        obtain ⟨hhm, hhp⟩ := List.mem_filter.mp hh
        obtain ⟨hgm, hgp⟩ := List.mem_filter.mp hg
        obtain ⟨hgar, hgnm⟩ := invC g hgm hgp
        rcases invB h hhm hhp g hgar with hin | hle
        · exact absurd hin hgnm
        · exact Or.inr hle
      rw [h1]
      exact merge_noop _ uid hnone

/-! ## Hevy CSV parsing (`sources/hevy/csv_parser.py`)

The CSV document is modelled at the `csv.DictReader` level: an optional
header (fieldnames) and a list of rows, each an association list from
column name to cell text; `row.get(key, default)` becomes `rowGet`.
Python `float` values are rationals and `round` is round-half-to-even;
`datetime` values are epoch seconds. Python's string primitives
(`strip`, `split`, `lower`) are modelled by structurally recursive
character-list functions. -/

/-- ASCII whitespace, for the model of Python `strip()`. -/
def isSpaceChar (c : Char) : Bool :=
  c == ' ' || c == '\t' || c == '\n' || c == '\r'

/-- Drop leading characters satisfying `p`. -/
def dropWhileList (p : Char → Bool) : List Char → List Char
  | [] => []
  | c :: cs => if p c then dropWhileList p cs else c :: cs

/-- Model of Python `str.strip()`: remove leading and trailing whitespace. -/
def pyStrip (s : String) : String :=
  String.mk ((dropWhileList isSpaceChar
    ((dropWhileList isSpaceChar s.data).reverse)).reverse)

/-- Split a character list at every occurrence of `sep`. -/
def splitChar (sep : Char) : List Char → List Char → List (List Char)
  | [], acc => [acc.reverse]
  | c :: cs, acc =>
    if c == sep then acc.reverse :: splitChar sep cs []
    else splitChar sep cs (c :: acc)

/-- Split a string at every occurrence of the separator character. -/
def splitStr (sep : Char) (s : String) : List String :=
  (splitChar sep s.data []).map String.mk

/-- Lowercase one ASCII letter. -/
def lowerChar (c : Char) : Char :=
  if 'A' ≤ c ∧ c ≤ 'Z' then Char.ofNat (c.toNat + 32) else c

/-- Model of Python `str.lower()` (ASCII). -/
def pyLower (s : String) : String := String.mk (s.data.map lowerChar)

/-- `LBS_TO_KG = 0.45359237`. -/
def LBS_TO_KG : Rat := 45359237 / 100000000

/-- `MILES_TO_METERS = 1609.344`. -/
def MILES_TO_METERS : Rat := 1609344 / 1000

/-- The required header columns. -/
def REQUIRED_COLUMNS : List String :=
  ["title", "start_time", "end_time", "exercise_title", "set_index", "set_type"]

/-- Round a rational to the nearest integer, halves to even (Python `round`). -/
def roundHalfEven (q : Rat) : Int :=
  let f := ⌊q⌋
  let r := q - (f : Rat)
  if r < 1 / 2 then f
  else if 1 / 2 < r then f + 1
  else if f % 2 = 0 then f else f + 1

/-- Python `round(x, ndigits)`. -/
def pyRound (q : Rat) (ndigits : Nat) : Rat :=
  (roundHalfEven (q * (10 : Rat) ^ ndigits) : Rat) / (10 : Rat) ^ ndigits

/-- Numeric value of a digit string. -/
def digitsVal (cs : List Char) : Nat :=
  cs.foldl (fun n c => n * 10 + (c.toNat - 48)) 0

/-- Every character is a decimal digit. -/
def allDigits (cs : List Char) : Bool := cs.all (fun c => c.isDigit)

/-- Parse a non-empty plain digit string. -/
def parseNatDigits (s : String) : Option Nat :=
  if !s.data.isEmpty && allDigits s.data then some (digitsVal s.data) else none

/-- Model of Python `float()` on plain decimal notation: optional sign,
digits with at most one decimal point, at least one digit. -/
def pyFloat (s : String) : Option Rat :=
  let t := pyStrip s
  let sgn : Bool × String :=
    match t.data with
    | '-' :: cs => (true, String.mk cs)
    | '+' :: cs => (false, String.mk cs)
    | _ => (false, t)
  let signed : Rat → Rat := fun q => if sgn.1 then -q else q
  match splitStr '.' sgn.2 with
  | [ip] =>
    match parseNatDigits ip with
    | some n => some (signed n)
    | none => none
  | [ip, fp] =>
    if ip.data.isEmpty && fp.data.isEmpty then none
    else if allDigits ip.data && allDigits fp.data then
      some (signed ((digitsVal ip.data : Rat) +
        (digitsVal fp.data : Rat) / (10 : Rat) ^ fp.length))
    else none
  | _ => none

/-- Embedding of `_parse_optional_float`: blank gives `None`, otherwise try
`float()`, returning `None` on failure. -/
def parse_optional_float (value : String) : Option Rat :=
  if pyStrip value = "" then none else pyFloat value

/-- Model of Python `int()` on decimal strings: optional sign, digits only. -/
def pyInt (s : String) : Option Int :=
  let t := pyStrip s
  let sgn : Bool × List Char :=
    match t.data with
    | '-' :: cs => (true, cs)
    | '+' :: cs => (false, cs)
    | cs => (false, cs)
  if sgn.2.isEmpty || !allDigits sgn.2 then none
  else some (if sgn.1 then -(digitsVal sgn.2 : Int) else (digitsVal sgn.2 : Int))

/-- Truncation toward zero, as Python `int(float)`. -/
def ratTrunc (q : Rat) : Int := q.num / (q.den : Int)

/-- Embedding of `_parse_optional_int`: blank gives `None`, try `int()`,
fall back to `float()` truncated toward zero. -/
def parse_optional_int (value : String) : Option Int :=
  if pyStrip value = "" then none
  else
    match pyInt value with
    | some n => some n
    | none =>
      match parse_optional_float value with
      | some q => some (ratTrunc q)
      | none => none

/-- Gregorian leap year. -/
def isLeapYear (y : Nat) : Bool := (y % 4 == 0 && y % 100 != 0) || y % 400 == 0

/-- Days in a month of a given year. -/
def daysInMonth (y m : Nat) : Nat :=
  if m == 2 then (if isLeapYear y then 29 else 28)
  else if m == 4 || m == 6 || m == 9 || m == 11 then 30
  else 31

/-- Days in all years before year `y` (year 1 is the first year). -/
def daysBeforeYear (y : Nat) : Nat :=
  365 * (y - 1) + (y - 1) / 4 - (y - 1) / 100 + (y - 1) / 400

/-- Days in the months of year `y` strictly before month `m`. -/
def daysBeforeMonth (y m : Nat) : Nat :=
  (List.range (m - 1)).foldl (fun acc i => acc + daysInMonth y (i + 1)) 0

/-- Seconds since the year-1 epoch of a calendar datetime. -/
def toEpochSeconds (y mo d hh mi ss : Nat) : Int :=
  ((daysBeforeYear y + daysBeforeMonth y mo + (d - 1)) * 86400 +
    hh * 3600 + mi * 60 + ss : Nat)

/-- Parse a `%Y` field: exactly four digits, year at least 1. -/
def parseYear (s : String) : Option Nat :=
  if s.length == 4 && allDigits s.data then
    let y := digitsVal s.data
    if 1 ≤ y then some y else none
  else none

/-- Parse a one- or two-digit field within bounds (strptime `%m`/`%d`/`%H`/`%M`/`%S`). -/
def parseNat2 (s : String) (lo hi : Nat) : Option Nat :=
  if (s.length == 1 || s.length == 2) && allDigits s.data then
    let n := digitsVal s.data
    if lo ≤ n ∧ n ≤ hi then some n else none
  else none

/-- Parse a `%Y-%m-%d` date, validating the day against the month. -/
def parseDatePart (s : String) : Option (Nat × Nat × Nat) :=
  match splitStr '-' s with
  | [ys, ms, ds] =>
    match parseYear ys, parseNat2 ms 1 12 with
    | some y, some m =>
      match parseNat2 ds 1 (daysInMonth y m) with
      | some d => some (y, m, d)
      | none => none
    | _, _ => none
  | _ => none

/-- Parse a `%H:%M:%S` (when `withSeconds`) or `%H:%M` time. -/
def parseTimePart (s : String) (withSeconds : Bool) : Option (Nat × Nat × Nat) :=
  match splitStr ':' s with
  | [hs, ms] =>
    if withSeconds then none
    else
      match parseNat2 hs 0 23, parseNat2 ms 0 59 with
      | some hh, some mi => some (hh, mi, 0)
      | _, _ => none
  | [hs, ms, ss] =>
    if withSeconds then
      match parseNat2 hs 0 23, parseNat2 ms 0 59, parseNat2 ss 0 59 with
      | some hh, some mi, some sec => some (hh, mi, sec)
      | _, _, _ => none
    else none
  | _ => none

/-- Parse one strptime format: date, separator, time. -/
def parseDatetimeFmt (sep : Char) (withSeconds : Bool) (s : String) : Option Int :=
  match splitStr sep s with
  | [dp, tp] =>
    match parseDatePart dp, parseTimePart tp withSeconds with
    | some (y, m, d), some (hh, mi, ss) => some (toEpochSeconds y m d hh mi ss)
    | _, _ => none
  | _ => none

/-- Embedding of `_parse_datetime`: blank gives `None`; otherwise the three
formats `%Y-%m-%d %H:%M:%S`, `%Y-%m-%dT%H:%M:%S`, `%Y-%m-%d %H:%M` are tried
in order on the stripped value. -/
def parse_datetime (value : String) : Option Int :=
  if pyStrip value = "" then none
  else
    match parseDatetimeFmt ' ' true (pyStrip value) with
    | some v => some v
    | none =>
      match parseDatetimeFmt 'T' true (pyStrip value) with
      | some v => some v
      | none => parseDatetimeFmt ' ' false (pyStrip value)

/-- A `csv.DictReader` row: column name to cell text. -/
abbrev Row := List (String × String)

/-- Embedding of `row.get(key, default)`. -/
def rowGet (row : Row) (key dflt : String) : String :=
  match row.lookup key with
  | some v => v
  | none => dflt

/-- A CSV document at the `DictReader` level: `fieldnames` is `none` for an
empty or headerless document. -/
structure CSVDoc where
  fieldnames : Option (List String)
  rows : List Row
  deriving DecidableEq, Repr

/-- Embedding of the `HevySet` dataclass. -/
structure HevySet where
  exercise_title : String
  set_index : Int
  set_type : String
  superset_id : Option Int
  exercise_notes : Option String
  weight_kg : Option Rat
  reps : Option Int
  distance_meters : Option Rat
  duration_seconds : Option Int
  rpe : Option Rat
  deriving DecidableEq, Repr

/-- Embedding of the `HevyWorkout` dataclass (`start_time` in epoch seconds). -/
structure HevyWorkout where
  title : String
  start_time : Int
  end_time : Option Int
  sets : List HevySet
  deriving DecidableEq, Repr

/-- Embedding of the `HevyParseResult` dataclass. -/
structure HevyParseResult where
  workouts : List HevyWorkout
  errors : List String
  rows_parsed : Nat
  rows_skipped : Nat
  deriving DecidableEq, Repr

/-- Mutable state of the row loop in `parse_hevy_csv`: the insertion-ordered
`workouts_map` keyed by `(title, start_time_str)`, plus errors and counters. -/
structure ParseState where
  workoutsMap : List ((String × String) × HevyWorkout)
  errors : List String
  rows_parsed : Nat
  rows_skipped : Nat
  deriving DecidableEq, Repr

/-- Initial row-loop state. -/
def initParseState : ParseState := ⟨[], [], 0, 0⟩

/-- The whitelisted set types. -/
def SET_TYPES : List String := ["normal", "warmup", "dropset", "failure"]

/-- The RPE range check of lines 160-162: present but outside `[1, 10]`. -/
def rpeOutOfRange (rpe0 : Option Rat) : Bool :=
  match rpe0 with
  | some r => decide (¬(1 ≤ r ∧ r ≤ 10))
  | none => false

/-- Construction of the `HevySet` for one row (lines 146-175 of the source):
set-type normalization and whitelisting, lbs→kg and miles→m conversion with
Python rounding, and the remaining optional fields. -/
def buildSet (row : Row) (exercise_title : String) (set_index : Int)
    (rpe : Option Rat) : HevySet :=
  let set_type0 := pyLower (pyStrip (rowGet row "set_type" "normal"))
  let weight_lbs := parse_optional_float (rowGet row "weight_lbs" "")
  let distance_miles := parse_optional_float (rowGet row "distance_miles" "")
  let notes0 := pyStrip (rowGet row "exercise_notes" "")
  { exercise_title := exercise_title
    set_index := set_index
    set_type := if set_type0 ∈ SET_TYPES then set_type0 else "normal"
    superset_id := parse_optional_int (rowGet row "superset_id" "")
    exercise_notes := if notes0 = "" then none else some notes0
    weight_kg := weight_lbs.map (fun w => pyRound (w * LBS_TO_KG) 2)
    reps := parse_optional_int (rowGet row "reps" "")
    distance_meters := distance_miles.map (fun d => pyRound (d * MILES_TO_METERS) 1)
    duration_seconds := parse_optional_int (rowGet row "duration_seconds" "")
    rpe := rpe }

/-- Insert-or-extend on the ordered workouts map: create the workout entry
when the key is new, then append the set to that entry (mirrors the two
steps at lines 177-186 of the source). -/
def addSetToMap (m : List ((String × String) × HevyWorkout)) (key : String × String)
    (newW : HevyWorkout) (s : HevySet) : List ((String × String) × HevyWorkout) :=
  let m1 := if (m.lookup key).isNone then m ++ [(key, newW)] else m
  m1.map (fun e => if e.1 = key then (e.1, { e.2 with sets := e.2.sets ++ [s] }) else e)

/-- One iteration of the row loop in `parse_hevy_csv`: the three guards
(blank key fields, unparseable start time, unparseable set index) record an
error and skip the row; otherwise the set is built, an out-of-range RPE is
reported and dropped, and the set is appended to its workout. -/
def parseRowStep (st : ParseState) (row_num : Nat) (row : Row) : ParseState :=
  let title := pyStrip (rowGet row "title" "")
  let start_time_str := pyStrip (rowGet row "start_time" "")
  let exercise_title := pyStrip (rowGet row "exercise_title" "")
  if title = "" ∨ start_time_str = "" ∨ exercise_title = "" then
    { st with
      errors := st.errors ++
        ["Row " ++ toString row_num ++ ": missing title, start_time, or exercise_title"]
      rows_skipped := st.rows_skipped + 1 }
  else
    match parse_datetime start_time_str with
    | none =>
      { st with
        errors := st.errors ++
          ["Row " ++ toString row_num ++ ": invalid start_time " ++ start_time_str]
        rows_skipped := st.rows_skipped + 1 }
    | some start_time =>
      match parse_optional_int (rowGet row "set_index" "") with
      | none =>
        { st with
          errors := st.errors ++
            ["Row " ++ toString row_num ++ ": invalid or missing set_index"]
          rows_skipped := st.rows_skipped + 1 }
      | some set_index =>
        let rpe0 := parse_optional_float (rowGet row "rpe" "")
        let st1 :=
          if rpeOutOfRange rpe0 then
            { st with
              errors := st.errors ++
                ["Row " ++ toString row_num ++ ": RPE out of range 1-10, ignoring"] }
          else st
        let rpe :=
          match rpe0 with
          | some r => if 1 ≤ r ∧ r ≤ 10 then some r else none
          | none => none
        let hevy_set := buildSet row exercise_title set_index rpe
        let key := (title, start_time_str)
        let newW : HevyWorkout :=
          { title := title
            start_time := start_time
            end_time := parse_datetime (rowGet row "end_time" "")
            sets := [] }
        { st1 with
          workoutsMap := addSetToMap st1.workoutsMap key newW hevy_set
          rows_parsed := st1.rows_parsed + 1 }

/-- The row loop of `parse_hevy_csv`, enumerating from row 2 (row 1 is the
header). -/
def processRows (st : ParseState) (row_num : Nat) : List Row → ParseState
  | [] => st
  | r :: rs => processRows (parseRowStep st row_num r) (row_num + 1) rs

/-- The required columns absent from the header. -/
def missingColumns (fieldnames : List String) : List String :=
  REQUIRED_COLUMNS.filter (fun c => !(fieldnames.contains c))

/-- Embedding of `parse_hevy_csv`: hard failure (single error, nothing
processed) on a missing header or missing required columns; otherwise the
row loop runs and the workouts are the map's values in insertion order. -/
def parse_hevy_csv (doc : CSVDoc) : HevyParseResult :=
  match doc.fieldnames with
  | none =>
    { workouts := []
      errors := ["CSV file is empty or has no header row"]
      rows_parsed := 0
      rows_skipped := 0 }
  | some fieldnames =>
    if (missingColumns fieldnames).isEmpty then
      let st := processRows initParseState 2 doc.rows
      { workouts := st.workoutsMap.map (fun e => e.2)
        errors := st.errors
        rows_parsed := st.rows_parsed
        rows_skipped := st.rows_skipped }
    else
      { workouts := []
        errors := ["Missing required columns: " ++
          String.intercalate ", " (missingColumns fieldnames)]
        rows_parsed := 0
        rows_skipped := 0 }

/-! ## C8 — parser failure modes -/

/-- A row tripping one of the three per-row guards: blank title/start
time/exercise title, unparseable start time, or unparseable set index. -/
def rowMalformed (row : Row) : Bool :=
  (pyStrip (rowGet row "title" "") == "" ||
    pyStrip (rowGet row "start_time" "") == "" ||
    pyStrip (rowGet row "exercise_title" "") == "") ||
  (parse_datetime (pyStrip (rowGet row "start_time" ""))).isNone ||
  (parse_optional_int (rowGet row "set_index" "")).isNone

/-- Each processed row increments exactly one of the two row counters. -/
theorem parseRowStep_counts (st : ParseState) (n : Nat) (row : Row) :
    (parseRowStep st n row).rows_parsed + (parseRowStep st n row).rows_skipped =
      st.rows_parsed + st.rows_skipped + 1 := by
  by_cases h1 : pyStrip (rowGet row "title" "") = "" ∨
      pyStrip (rowGet row "start_time" "") = "" ∨
      pyStrip (rowGet row "exercise_title" "") = ""
  · simp [parseRowStep, if_pos h1]; omega
  · cases hdt : parse_datetime (pyStrip (rowGet row "start_time" "")) with
    | none => simp [parseRowStep, if_neg h1, hdt]; omega
    | some t =>
      cases hsi : parse_optional_int (rowGet row "set_index" "") with
      | none => simp [parseRowStep, if_neg h1, hdt, hsi]; omega
      | some i =>
        by_cases hb : rpeOutOfRange (parse_optional_float (rowGet row "rpe" "")) = true
        · simp [parseRowStep, if_neg h1, hdt, hsi, hb]; omega
        · simp [parseRowStep, if_neg h1, hdt, hsi, hb]; omega

/-- The row loop processes every row: the two counters grow by exactly the
number of rows. -/
theorem processRows_counts (rows : List Row) :
    ∀ (st : ParseState) (n : Nat),
    (processRows st n rows).rows_parsed + (processRows st n rows).rows_skipped =
      st.rows_parsed + st.rows_skipped + rows.length := by
  induction rows with
  | nil => intro st n; simp [processRows]
  | cons r rs ih =>
    intro st n
    simp only [processRows, List.length_cons]
    rw [ih]
    have := parseRowStep_counts st n r
    omega

/-- The concrete C8 counterexample document: a well-formed header with all
required columns and a single row with no cells, which trips the first
per-row guard. -/
def docOneBadRow : CSVDoc := ⟨some REQUIRED_COLUMNS, [[]]⟩

/-- C8 counterexample: the claim says an empty workout list together with a
single error occurs exactly when the document is empty/headerless or a
required column is missing. This document has a complete header (no hard
failure), yet parsing returns an empty workout list and exactly one error
(the skipped row's error), refuting the "exactly when". -/
theorem parser_hard_failure_counterexample :
    (parse_hevy_csv docOneBadRow).workouts = [] ∧
    (parse_hevy_csv docOneBadRow).errors.length = 1 ∧
    docOneBadRow.fieldnames = some REQUIRED_COLUMNS ∧
    missingColumns REQUIRED_COLUMNS = [] := by
  refine ⟨by decide, by decide, rfl, by decide⟩

/-- C8 (amended): the parser returns an empty workout list, a single error
and zero processed rows (nothing parsed, nothing skipped) exactly when the
document is empty/headerless or a required column is missing; a row tripping
a per-row guard is recorded as one error and counted in `rows_skipped`,
leaving the rest of the state intact, after which the loop continues with
the remaining rows; and a row passing the guards is parsed, not skipped. -/
theorem parser_failure_modes (doc : CSVDoc) (st : ParseState) (n : Nat)
    (row : Row) (rows : List Row) :
    (((parse_hevy_csv doc).workouts = [] ∧
      (parse_hevy_csv doc).errors.length = 1 ∧
      (parse_hevy_csv doc).rows_parsed = 0 ∧
      (parse_hevy_csv doc).rows_skipped = 0) ↔
      (doc.fieldnames = none ∨
        ∃ fs, doc.fieldnames = some fs ∧ (missingColumns fs).isEmpty = false)) ∧
    (rowMalformed row = true →
      (∃ msg, parseRowStep st n row =
        { st with
          errors := st.errors ++ [msg]
          rows_skipped := st.rows_skipped + 1 }) ∧
      processRows st n (row :: rows) = processRows (parseRowStep st n row) (n + 1) rows) ∧
    (rowMalformed row = false →
      (parseRowStep st n row).rows_skipped = st.rows_skipped ∧
      (parseRowStep st n row).rows_parsed = st.rows_parsed + 1 ∧
      (parseRowStep st n row).errors.length ≤ st.errors.length + 1) := by
  refine ⟨⟨?_, ?_⟩, ?_, ?_⟩
  · intro ⟨hw, he, hp, hs⟩
    cases hfn : doc.fieldnames with
    | none => exact Or.inl rfl
    | some fs =>
      refine Or.inr ⟨fs, rfl, ?_⟩
      by_cases hmiss : (missingColumns fs).isEmpty
      · exfalso
        have hcount := processRows_counts doc.rows initParseState 2
        simp only [parse_hevy_csv, hfn, hmiss, if_true] at hp hs he
        rw [hp, hs] at hcount
        simp [initParseState] at hcount
        have hrows : doc.rows = [] := List.length_eq_zero.mp hcount.symm
        rw [hrows] at he
        simp [processRows, initParseState] at he
      · simp only [Bool.not_eq_true] at hmiss
        exact hmiss
  · intro hhard
    rcases hhard with hfn | ⟨fs, hfn, hmiss⟩
    · simp [parse_hevy_csv, hfn]
    · simp [parse_hevy_csv, hfn, hmiss]
  · intro hmal
    refine ⟨?_, rfl⟩
    by_cases h1 : pyStrip (rowGet row "title" "") = "" ∨
        pyStrip (rowGet row "start_time" "") = "" ∨
        pyStrip (rowGet row "exercise_title" "") = ""
    · exact ⟨"Row " ++ toString n ++ ": missing title, start_time, or exercise_title",
        by simp [parseRowStep, if_pos h1]⟩
    · cases hdt : parse_datetime (pyStrip (rowGet row "start_time" "")) with
      | none =>
        exact ⟨"Row " ++ toString n ++ ": invalid start_time " ++
            pyStrip (rowGet row "start_time" ""),
          by simp [parseRowStep, if_neg h1, hdt]⟩
      | some t =>
        cases hsi : parse_optional_int (rowGet row "set_index" "") with
        | none =>
          exact ⟨"Row " ++ toString n ++ ": invalid or missing set_index",
            by simp [parseRowStep, if_neg h1, hdt, hsi]⟩
        | some i =>
          exfalso
          unfold rowMalformed at hmal
          rw [hdt, hsi] at hmal
          simp only [Option.isNone_some, Bool.or_false, Bool.or_eq_true,
            beq_iff_eq] at hmal
          exact h1 (by tauto)
  · intro hmal
    by_cases h1 : pyStrip (rowGet row "title" "") = "" ∨
        pyStrip (rowGet row "start_time" "") = "" ∨
        pyStrip (rowGet row "exercise_title" "") = ""
    · exfalso
      unfold rowMalformed at hmal
      rcases h1 with h1 | h1 | h1 <;> simp [h1] at hmal
    · cases hdt : parse_datetime (pyStrip (rowGet row "start_time" "")) with
      | none =>
        exfalso
        unfold rowMalformed at hmal
        rw [hdt] at hmal
        simp at hmal
      | some t =>
        cases hsi : parse_optional_int (rowGet row "set_index" "") with
        | none =>
          exfalso
          unfold rowMalformed at hmal
          rw [hsi] at hmal
          simp at hmal
        | some i =>
          refine ⟨?_, ?_, ?_⟩
          · by_cases hb : rpeOutOfRange (parse_optional_float (rowGet row "rpe" "")) = true
            · simp [parseRowStep, if_neg h1, hdt, hsi, hb]
            · simp [parseRowStep, if_neg h1, hdt, hsi, hb]
          · by_cases hb : rpeOutOfRange (parse_optional_float (rowGet row "rpe" "")) = true
            · simp [parseRowStep, if_neg h1, hdt, hsi, hb]
            · simp [parseRowStep, if_neg h1, hdt, hsi, hb]
          · by_cases hb : rpeOutOfRange (parse_optional_float (rowGet row "rpe" "")) = true
            · simp [parseRowStep, if_neg h1, hdt, hsi, hb]
            · simp [parseRowStep, if_neg h1, hdt, hsi, hb]

/-- Witness for `parser_failure_modes`: the headerless document hard-fails
with one error, and a cell-less row is skipped with one recorded error. -/
theorem parser_failure_modes_witness :
    (parse_hevy_csv ⟨none, []⟩).workouts = [] ∧
    (parse_hevy_csv ⟨none, []⟩).errors.length = 1 ∧
    (∃ msg, parseRowStep initParseState 2 [] =
      { initParseState with
        errors := initParseState.errors ++ [msg]
        rows_skipped := initParseState.rows_skipped + 1 }) := by
  have hth := parser_failure_modes ⟨none, []⟩ initParseState 2 [] []
  have h1 := hth.1.mpr (Or.inl rfl)
  have h2 := (hth.2.1 (by decide)).1
  exact ⟨h1.1, h1.2.1, h2⟩

/-! ## C9 — unit conversions -/

/-- Rounding a rational whose fractional part is below one half truncates. -/
theorem roundHalfEven_lt_half (q : Rat) (f : Int) (h1 : (f : Rat) ≤ q)
    (h2 : q - (f : Rat) < 1 / 2) : roundHalfEven q = f := by
  have hf : ⌊q⌋ = f := by
    rw [Int.floor_eq_iff]
    refine ⟨h1, ?_⟩
    have hhalf : (1 : Rat) / 2 < 1 := by norm_num
    linarith
  simp only [roundHalfEven, hf]
  rw [if_pos h2]

/-- The weight conversion of the spec's example: `round(185 * 0.45359237, 2)`. -/
theorem pyRound_weight_example : pyRound (185 * LBS_TO_KG) 2 = 8391 / 100 := by
  have h : (185 * LBS_TO_KG) * (10 : Rat) ^ 2 = 8391458845 / 1000000 := by
    norm_num [LBS_TO_KG]
  unfold pyRound
  rw [h, roundHalfEven_lt_half (8391458845 / 1000000) 8391 (by norm_num) (by norm_num)]
  norm_num

/-- The distance conversion of the spec's example: `round(1 * 1609.344, 1)`. -/
theorem pyRound_distance_example : pyRound (1 * MILES_TO_METERS) 1 = 16093 / 10 := by
  have h : (1 * MILES_TO_METERS) * (10 : Rat) ^ 1 = 1609344 / 100 := by
    norm_num [MILES_TO_METERS]
  unfold pyRound
  rw [h, roundHalfEven_lt_half (1609344 / 100) 16093 (by norm_num) (by norm_num)]
  norm_num

/-- C9 (confirmed): every parsed numeric weight is the pound value times
0.45359237 rounded (half-to-even) to 2 decimals, and every parsed numeric
distance is the mile value times 1609.344 rounded to 1 decimal; in
particular 185 lbs maps exactly to 83.91 kg (within 0.01) and 1 mile maps
exactly to 1609.3 m (within 0.1). -/
theorem csv_unit_conversions :
    (∀ (row : Row) (ex : String) (si : Int) (rpe : Option Rat) (w : Rat),
      parse_optional_float (rowGet row "weight_lbs" "") = some w →
      (buildSet row ex si rpe).weight_kg = some (pyRound (w * LBS_TO_KG) 2)) ∧
    (∀ (row : Row) (ex : String) (si : Int) (rpe : Option Rat) (d : Rat),
      parse_optional_float (rowGet row "distance_miles" "") = some d →
      (buildSet row ex si rpe).distance_meters = some (pyRound (d * MILES_TO_METERS) 1)) ∧
    pyRound (185 * LBS_TO_KG) 2 = 8391 / 100 ∧
    |pyRound (185 * LBS_TO_KG) 2 - 8391 / 100| ≤ 1 / 100 ∧
    pyRound (1 * MILES_TO_METERS) 1 = 16093 / 10 ∧
    |pyRound (1 * MILES_TO_METERS) 1 - 16093 / 10| ≤ 1 / 10 := by
  refine ⟨?_, ?_, pyRound_weight_example, ?_, pyRound_distance_example, ?_⟩
  · intro row ex si rpe w hw
    simp [buildSet, hw]
  · intro row ex si rpe d hd
    simp [buildSet, hd]
  · rw [pyRound_weight_example]
    norm_num
  · rw [pyRound_distance_example]
    norm_num

/-- A fully-populated example row: 185 lbs bench set with a 1-mile distance. -/
def exRow : Row :=
  [("title", "Push Day"), ("start_time", "2023-01-02 10:00:00"),
   ("end_time", "2023-01-02 11:00:00"), ("exercise_title", "Bench"),
   ("set_index", "1"), ("set_type", "normal"),
   ("weight_lbs", "185"), ("distance_miles", "1")]

/-- Witness for `csv_unit_conversions` at the example row: the built set
carries 83.91 kg and 1609.3 m. -/
theorem csv_unit_conversions_witness :
    (buildSet exRow "Bench" 1 none).weight_kg = some (8391 / 100 : Rat) ∧
    (buildSet exRow "Bench" 1 none).distance_meters = some (16093 / 10 : Rat) := by
  have hth := csv_unit_conversions
  have hw := hth.1 exRow "Bench" 1 none 185 (by decide)
  have hd := hth.2.1 exRow "Bench" 1 none 1 (by decide)
  exact ⟨by rw [hw, hth.2.2.1], by rw [hd, hth.2.2.2.2.1]⟩

/-! ## CSV import (`sources/hevy/mappers.py`) -/

/-- Embedding of the `ImportResult` dataclass (`sources/base.py`). -/
structure ImportResult where
  source_type : String
  activities_created : Nat
  activities_skipped : Nat
  health_snapshots_created : Nat
  errors : Option (List String)
  deriving DecidableEq, Repr

/-- Embedding of `_workout_exists`: an activity of this user with the same
title and start time whose source is `"hevy"` or `"merged"`. -/
def workout_exists (db : List Activity) (uid : Int) (w : HevyWorkout) : Bool :=
  db.any (fun a => a.user_id == uid && a.title == w.title &&
    a.start_time == w.start_time &&
    (a.data_source == "hevy" || a.data_source == "merged"))

/-- Embedding of `_compute_duration`: minutes between start and end
(truncated toward zero, as Python `int()`), `None` unless positive. -/
def compute_duration (w : HevyWorkout) : Option Int :=
  match w.end_time with
  | some e =>
    let minutes := (e - w.start_time) / 60
    if 0 < minutes then some minutes else none
  | none => none

/-- The `Activity` row created for a new workout (lines 59-68 of the
mappers): gym sport, `"hevy"` source, freshly assigned id. -/
def newActivityFromWorkout (uid : Int) (w : HevyWorkout) (now : Int)
    (aid : Int) : Activity :=
  { id := aid, user_id := uid, sport := "gym", title := w.title,
    start_time := w.start_time, end_time := w.end_time,
    duration_minutes := compute_duration w,
    avg_hr := none, max_hr := none, calories := none, hr_zones := none,
    training_effect_aerobic := none, training_effect_anaerobic := none,
    data_source := "hevy", garmin_activity_id := none, notes := none,
    created_at := now }

/-- The workout loop of `import_hevy_workouts`: skip existing workouts,
append new `Activity` rows (ids assigned by flush, modelled by a counter). -/
def importLoop (uid : Int) (now : Int) :
    List HevyWorkout → List Activity → Int → Nat → Nat →
    List Activity × Nat × Nat × Int
  | [], db, nextId, created, skipped => (db, created, skipped, nextId)
  | w :: ws, db, nextId, created, skipped =>
    if workout_exists db uid w then
      importLoop uid now ws db nextId created (skipped + 1)
    else
      importLoop uid now ws (db ++ [newActivityFromWorkout uid w now nextId])
        (nextId + 1) (created + 1) skipped

/-- Embedding of `import_hevy_workouts`: dedup-or-create per parsed workout;
the result carries the parse errors and the two counters. -/
def import_hevy_workouts (db : List Activity) (uid : Int) (pr : HevyParseResult)
    (now : Int) (nextId : Int) : List Activity × ImportResult :=
  let r := importLoop uid now pr.workouts db nextId 0 0
  (r.1,
    { source_type := "hevy_csv"
      activities_created := r.2.1
      activities_skipped := r.2.2.1
      health_snapshots_created := 0
      errors := some pr.errors })

/-- Existence checks survive database growth by appends. -/
theorem workout_exists_append (db ext : List Activity) (uid : Int)
    (w : HevyWorkout) (h : workout_exists db uid w = true) :
    workout_exists (db ++ ext) uid w = true := by
  simp only [workout_exists, List.any_append, Bool.or_eq_true]
  exact Or.inl h

/-- The import loop only appends rows. -/
theorem importLoop_suffix (uid now : Int) :
    ∀ (ws : List HevyWorkout) (db : List Activity) (nextId : Int)
      (created skipped : Nat),
    ∃ ext, (importLoop uid now ws db nextId created skipped).1 = db ++ ext := by
  intro ws
  induction ws with
  | nil => intro db nextId c s; exact ⟨[], by simp [importLoop]⟩
  | cons w t ih =>
    intro db nextId c s
    by_cases hx : workout_exists db uid w = true
    · simp only [importLoop, hx, if_true]
      exact ih db nextId c (s + 1)
    · simp only [importLoop, hx, if_false]
      obtain ⟨ext, hext⟩ := ih (db ++ [newActivityFromWorkout uid w now nextId])
        (nextId + 1) (c + 1) s
      exact ⟨newActivityFromWorkout uid w now nextId :: ext, by simpa using hext⟩

/-- After the import loop, every processed workout exists in the database. -/
theorem importLoop_exists_after (uid now : Int) :
    ∀ (ws : List HevyWorkout) (db : List Activity) (nextId : Int)
      (created skipped : Nat), ∀ w ∈ ws,
    workout_exists (importLoop uid now ws db nextId created skipped).1 uid w = true := by
  intro ws
  induction ws with
  | nil => intro db nextId c s w hw; exact absurd hw (List.not_mem_nil w)
  | cons w0 t ih =>
    intro db nextId c s w hw
    rw [List.mem_cons] at hw
    by_cases hx : workout_exists db uid w0 = true
    · simp only [importLoop, if_pos hx]
      rcases hw with rfl | hw
      · obtain ⟨ext, hext⟩ := importLoop_suffix uid now t db nextId c (s + 1)
        rw [hext]
        exact workout_exists_append db ext uid w hx
      · exact ih db nextId c (s + 1) w hw
    · simp only [importLoop, if_neg hx]
      rcases hw with rfl | hw
      · obtain ⟨ext, hext⟩ := importLoop_suffix uid now t
          (db ++ [newActivityFromWorkout uid w now nextId]) (nextId + 1) (c + 1) s
        rw [hext]
        apply workout_exists_append
        simp [workout_exists, newActivityFromWorkout]
      · exact ih (db ++ [newActivityFromWorkout uid w0 now nextId])
          (nextId + 1) (c + 1) s w hw

/-- When every workout already exists, the loop only counts skips. -/
theorem importLoop_all_skipped (uid now : Int) :
    ∀ (ws : List HevyWorkout) (db : List Activity) (nextId : Int)
      (created skipped : Nat),
    (∀ w ∈ ws, workout_exists db uid w = true) →
    importLoop uid now ws db nextId created skipped =
      (db, created, skipped + ws.length, nextId) := by
  intro ws
  induction ws with
  | nil => intro db nextId c s _; simp [importLoop]
  | cons w t ih =>
    intro db nextId c s hall
    have hw := hall w (List.mem_cons_self w t)
    simp only [importLoop, if_pos hw]
    rw [ih db nextId c (s + 1) fun x hx => hall x (List.mem_cons_of_mem w hx)]
    simp only [List.length_cons]
    have harith : s + 1 + t.length = s + (t.length + 1) := by omega
    rw [harith]

/-- The database grows by exactly the number of created activities. -/
theorem importLoop_length (uid now : Int) :
    ∀ (ws : List HevyWorkout) (db : List Activity) (nextId : Int)
      (created skipped : Nat),
    (importLoop uid now ws db nextId created skipped).1.length + created =
      db.length + (importLoop uid now ws db nextId created skipped).2.1 := by
  intro ws
  induction ws with
  | nil => intro db nextId c s; simp [importLoop]
  | cons w t ih =>
    intro db nextId c s
    by_cases hx : workout_exists db uid w = true
    · simp only [importLoop, if_pos hx]
      exact ih db nextId c (s + 1)
    · simp only [importLoop, if_neg hx]
      have hih := ih (db ++ [newActivityFromWorkout uid w now nextId])
        (nextId + 1) (c + 1) s
      simp only [List.length_append, List.length_singleton] at hih
      omega

/-- C7 (confirmed): importing the same parsed content twice for the same
user leaves the database exactly as after the first import; on the second
run nothing is created and every workout is skipped, with
`activities_skipped` equal to the parsed workout count; and the first import
grows the Activity table by exactly its `activities_created`. -/
theorem import_idempotent (db : List Activity) (uid : Int) (pr : HevyParseResult)
    (now1 now2 nextId1 nextId2 : Int) :
    (import_hevy_workouts (import_hevy_workouts db uid pr now1 nextId1).1
        uid pr now2 nextId2).1 =
      (import_hevy_workouts db uid pr now1 nextId1).1 ∧
    (import_hevy_workouts (import_hevy_workouts db uid pr now1 nextId1).1
        uid pr now2 nextId2).2 =
      { source_type := "hevy_csv"
        activities_created := 0
        activities_skipped := pr.workouts.length
        health_snapshots_created := 0
        errors := some pr.errors } ∧
    (import_hevy_workouts db uid pr now1 nextId1).1.length =
      db.length + (import_hevy_workouts db uid pr now1 nextId1).2.activities_created := by
  have hall : ∀ w ∈ pr.workouts,
      workout_exists (importLoop uid now1 pr.workouts db nextId1 0 0).1 uid w = true :=
    fun w hw => importLoop_exists_after uid now1 pr.workouts db nextId1 0 0 w hw
  have hskip := importLoop_all_skipped uid now2 pr.workouts
    (importLoop uid now1 pr.workouts db nextId1 0 0).1 nextId2 0 0 hall
  have hlen := importLoop_length uid now1 pr.workouts db nextId1 0 0
  refine ⟨?_, ?_, ?_⟩
  · simp only [import_hevy_workouts]
    rw [hskip]
  · simp only [import_hevy_workouts]
    rw [hskip]
    simp
  · simp only [import_hevy_workouts]
    omega

/-! ## Coaching engine (`coaching/engine.py`, `coaching/context.py`)

The LLM and the response validator are oracles passed as functions; a call
that raises is an `Except.error`. The outcome records the LLM invocations
made (system prompt, user message, model), the `PromptLog` rows added, the
stored insight, and the raised error, mirroring the control flow of
`generate_daily_briefing` / `generate_post_workout_analysis`. -/

/-- Embedding of `LLMResponse` (`coaching/llm_client.py`); the cost is a
rational stand-in for the float. -/
structure LLMResponse where
  content : String
  model : String
  input_tokens : Option Nat
  output_tokens : Option Nat
  latency_ms : Option Nat
  estimated_cost_usd : Option Rat
  deriving DecidableEq, Repr

/-- Embedding of the `PromptLog` ORM row (db-assigned id/created_at omitted). -/
structure PromptLog where
  prompt_type : String
  prompt_version : String
  model : String
  input_tokens : Option Nat
  output_tokens : Option Nat
  latency_ms : Option Nat
  estimated_cost_usd : Option Rat
  prompt_text : Option String
  response_text : Option String
  success : Bool
  error : Option String
  deriving DecidableEq, Repr

/-- Embedding of the `CoachingInsight` ORM row (db-assigned fields omitted). -/
structure CoachingInsight where
  user_id : Int
  insight_date : Int
  insight_type : String
  content : String
  prompt_version : String
  activity_id : Option Int
  deriving DecidableEq, Repr

/-- A validated LLM response; `dump` is `model_dump_json()`. -/
structure ParsedResponse where
  dump : String
  deriving DecidableEq, Repr

/-- `PROMPT_VERSION = "v1"`. -/
def PROMPT_VERSION : String := "v1"

/-- The instruction appended to the user message on the single retry. -/
def RETRY_SUFFIX : String := "\n\nIMPORTANT: Respond ONLY with valid JSON."

/-- The `PromptLog` row built at lines 120-132 of the engine: fields from the
last LLM response when one exists, else defaults and the configured model. -/
def mkPromptLog (ptype model : String) (resp : Option LLMResponse)
    (userMessage : String) (success : Bool) (err : Option String) : PromptLog :=
  { prompt_type := ptype
    prompt_version := PROMPT_VERSION
    model := match resp with | some r => r.model | none => model
    input_tokens := match resp with | some r => r.input_tokens | none => none
    output_tokens := match resp with | some r => r.output_tokens | none => none
    latency_ms := match resp with | some r => r.latency_ms | none => none
    estimated_cost_usd := match resp with | some r => r.estimated_cost_usd | none => none
    prompt_text := some userMessage
    response_text := match resp with | some r => some r.content | none => none
    success := success
    error := err }

/-- Outcome of one `generate_daily_briefing` call. -/
structure BriefingOutcome where
  calls : List (String × String × String)
  logs : List PromptLog
  insight : Option CoachingInsight
  err : Option String
  deriving DecidableEq, Repr

/-- Embedding of `CoachingEngine.generate_daily_briefing`: duplicate check,
first LLM call and parse, a single retry (same system prompt and model, the
respond-only-with-JSON suffix appended) only when an LLM response was
obtained, one `PromptLog` row in every generation path, and either a stored
insight or a raised error. -/
def generate_daily_briefing
    (llm : String → String → String → Except String LLMResponse)
    (parse : String → Except String ParsedResponse)
    (dailyModel : String) (existingBriefing : Bool)
    (systemPrompt userMessage : String) (uid today : Int) : BriefingOutcome :=
  if existingBriefing then
    { calls := [], logs := [], insight := none,
      err := some "Daily briefing already exists" }
  else
    match llm systemPrompt userMessage dailyModel with
    | .error e =>
      { calls := [(systemPrompt, userMessage, dailyModel)]
        logs := [mkPromptLog "daily_briefing" dailyModel none userMessage false (some e)]
        insight := none
        err := some ("Failed to generate daily briefing: " ++ e) }
    | .ok r1 =>
      match parse r1.content with
      | .ok p =>
        { calls := [(systemPrompt, userMessage, dailyModel)]
          logs := [mkPromptLog "daily_briefing" dailyModel (some r1) userMessage true none]
          insight := some
            { user_id := uid
              insight_date := today
              insight_type := "daily_briefing"
              content := p.dump
              prompt_version := PROMPT_VERSION
              activity_id := none }
          err := none }
      | .error _ =>
        match llm systemPrompt (userMessage ++ RETRY_SUFFIX) dailyModel with
        | .error e2 =>
          { calls := [(systemPrompt, userMessage, dailyModel),
              (systemPrompt, userMessage ++ RETRY_SUFFIX, dailyModel)]
            logs := [mkPromptLog "daily_briefing" dailyModel (some r1) userMessage false
              (some ("Retry also failed: " ++ e2))]
            insight := none
            err := some ("Failed to generate daily briefing: Retry also failed: " ++ e2) }
        | .ok r2 =>
          match parse r2.content with
          | .ok p =>
            { calls := [(systemPrompt, userMessage, dailyModel),
                (systemPrompt, userMessage ++ RETRY_SUFFIX, dailyModel)]
              logs := [mkPromptLog "daily_briefing" dailyModel (some r2) userMessage true none]
              insight := some
                { user_id := uid
                  insight_date := today
                  insight_type := "daily_briefing"
                  content := p.dump
                  prompt_version := PROMPT_VERSION
                  activity_id := none }
              err := none }
          | .error e3 =>
            { calls := [(systemPrompt, userMessage, dailyModel),
                (systemPrompt, userMessage ++ RETRY_SUFFIX, dailyModel)]
              logs := [mkPromptLog "daily_briefing" dailyModel (some r2) userMessage false
                (some ("Retry also failed: " ++ e3))]
              insight := none
              err := some ("Failed to generate daily briefing: Retry also failed: " ++ e3) }

/-! ## C5 — retry and audit-log discipline -/

/-- C5 (confirmed, for calls that pass the duplicate check): every
generation path persists exactly one `PromptLog` row; a parse/validation
failure of an obtained LLM response triggers exactly one retry, reusing the
same system prompt and model with the respond-only-with-JSON instruction
appended; when the retry also fails (its call errors or its response fails
to parse) the call raises, stores no insight, and the single log row has
`success = false` and an error message; and a first-attempt success makes
no second LLM call. -/
theorem briefing_retry_and_logging
    (llm : String → String → String → Except String LLMResponse)
    (parse : String → Except String ParsedResponse)
    (dailyModel systemPrompt userMessage : String) (uid today : Int) :
    ((generate_daily_briefing llm parse dailyModel false systemPrompt userMessage
        uid today).logs.length = 1) ∧
    (∀ r1 e1, llm systemPrompt userMessage dailyModel = .ok r1 →
      parse r1.content = .error e1 →
      ((generate_daily_briefing llm parse dailyModel false systemPrompt userMessage
          uid today).calls =
        [(systemPrompt, userMessage, dailyModel),
         (systemPrompt, userMessage ++ RETRY_SUFFIX, dailyModel)]) ∧
      ((∀ r2, llm systemPrompt (userMessage ++ RETRY_SUFFIX) dailyModel = .ok r2 →
          ∃ e2, parse r2.content = .error e2) →
        (generate_daily_briefing llm parse dailyModel false systemPrompt userMessage
          uid today).err.isSome = true ∧
        (generate_daily_briefing llm parse dailyModel false systemPrompt userMessage
          uid today).insight = none ∧
        ∃ lg, (generate_daily_briefing llm parse dailyModel false systemPrompt
            userMessage uid today).logs = [lg] ∧
          lg.success = false ∧ lg.error.isSome = true)) ∧
    (∀ r1 p, llm systemPrompt userMessage dailyModel = .ok r1 →
      parse r1.content = .ok p →
      (generate_daily_briefing llm parse dailyModel false systemPrompt userMessage
        uid today).calls = [(systemPrompt, userMessage, dailyModel)]) := by
  refine ⟨?_, ?_, ?_⟩
  · cases h1 : llm systemPrompt userMessage dailyModel with
    | error e => simp [generate_daily_briefing, h1]
    | ok r1 =>
      cases h2 : parse r1.content with
      | ok p => simp [generate_daily_briefing, h1, h2]
      | error e1 =>
        cases h3 : llm systemPrompt (userMessage ++ RETRY_SUFFIX) dailyModel with
        | error e2 => simp [generate_daily_briefing, h1, h2, h3]
        | ok r2 =>
          cases h4 : parse r2.content with
          | ok p => simp [generate_daily_briefing, h1, h2, h3, h4]
          | error e3 => simp [generate_daily_briefing, h1, h2, h3, h4]
  · intro r1 e1 h1 h2
    constructor
    · cases h3 : llm systemPrompt (userMessage ++ RETRY_SUFFIX) dailyModel with
      | error e2 => simp [generate_daily_briefing, h1, h2, h3]
      | ok r2 =>
        cases h4 : parse r2.content with
        | ok p => simp [generate_daily_briefing, h1, h2, h3, h4]
        | error e3 => simp [generate_daily_briefing, h1, h2, h3, h4]
    · intro hfail
      cases h3 : llm systemPrompt (userMessage ++ RETRY_SUFFIX) dailyModel with
      | error e2 =>
        refine ⟨by simp [generate_daily_briefing, h1, h2, h3], ?_, ?_⟩
        · simp [generate_daily_briefing, h1, h2, h3]
        · exact ⟨mkPromptLog "daily_briefing" dailyModel (some r1) userMessage false
            (some ("Retry also failed: " ++ e2)),
            by simp [generate_daily_briefing, h1, h2, h3], rfl, rfl⟩
      | ok r2 =>
        obtain ⟨e2, h4⟩ := hfail r2 h3
        refine ⟨by simp [generate_daily_briefing, h1, h2, h3, h4], ?_, ?_⟩
        · simp [generate_daily_briefing, h1, h2, h3, h4]
        · exact ⟨mkPromptLog "daily_briefing" dailyModel (some r2) userMessage false
            (some ("Retry also failed: " ++ e2)),
            by simp [generate_daily_briefing, h1, h2, h3, h4], rfl, rfl⟩
  · intro r1 p h1 h2
    simp [generate_daily_briefing, h1, h2]

/-- A fixed successful LLM response for the witnesses. -/
def llmRespW : LLMResponse :=
  { content := "not json", model := "claude-test", input_tokens := some 10,
    output_tokens := some 5, latency_ms := some 100, estimated_cost_usd := none }

/-- Oracle that always returns `llmRespW`. -/
def llmOracleOk : String → String → String → Except String LLMResponse :=
  fun _ _ _ => .ok llmRespW

/-- Validator oracle that accepts everything. -/
def parseOracleOk : String → Except String ParsedResponse :=
  fun s => .ok ⟨s⟩

/-- Validator oracle that rejects everything. -/
def parseOracleFail : String → Except String ParsedResponse :=
  fun _ => .error "invalid JSON"

/-- Witness for `briefing_retry_and_logging`: with an LLM that answers and a
validator that always rejects, the call makes exactly the original and one
suffixed retry invocation, raises, and persists one failed log row. -/
theorem briefing_retry_and_logging_witness :
    (generate_daily_briefing llmOracleOk parseOracleFail "m" false "sys" "msg" 1 0).calls =
      [("sys", "msg", "m"), ("sys", "msg" ++ RETRY_SUFFIX, "m")] ∧
    (generate_daily_briefing llmOracleOk parseOracleFail "m" false "sys" "msg" 1 0).err.isSome = true ∧
    (∃ lg, (generate_daily_briefing llmOracleOk parseOracleFail "m" false "sys" "msg" 1 0).logs = [lg] ∧
      lg.success = false ∧ lg.error.isSome = true) ∧
    (generate_daily_briefing llmOracleOk parseOracleOk "m" false "sys" "msg" 1 0).calls =
      [("sys", "msg", "m")] := by
  have hth := briefing_retry_and_logging llmOracleOk parseOracleFail "m" "sys" "msg" 1 0
  have hmain := hth.2.1 llmRespW "invalid JSON" rfl rfl
  have hterm := hmain.2 fun r2 _ => ⟨"invalid JSON", rfl⟩
  have hok := briefing_retry_and_logging llmOracleOk parseOracleOk "m" "sys" "msg" 1 0
  exact ⟨hmain.1, hterm.1, hterm.2.2, hok.2.2 llmRespW ⟨llmRespW.content⟩ rfl rfl⟩

/-! ## C6 — planned-session linkage never blocks insight persistence -/

/-- Embedding of the `PlannedSession` ORM row (`models/plan.py`). -/
structure PlannedSession where
  id : Int
  plan_id : Int
  day_of_week : Int
  sport : String
  title : String
  duration_minutes : Option Int
  details : Option String
  notes : Option String
  completed : Bool
  activity_id : Option Int
  deriving DecidableEq, Repr

/-- Embedding of `link_activity_to_planned_session` (`coaching/context.py`
lines 256-268): look the planned session up by id; when found, mark it
completed and link the activity; when the lookup fails, do nothing. -/
def link_activity_to_planned_session (plans : List PlannedSession)
    (activity_id pid : Int) : List PlannedSession :=
  plans.map fun p =>
    if p.id == pid then { p with completed := true, activity_id := some activity_id }
    else p

/-- Outcome of one `generate_post_workout_analysis` call. -/
structure PostOutcome where
  calls : List (String × String × String)
  logs : List PromptLog
  plans : List PlannedSession
  insight : Option CoachingInsight
  err : Option String
  deriving DecidableEq, Repr

/-- The post-workout insight stored on success. -/
def postInsight (uid activity_id activity_date : Int) (p : ParsedResponse) :
    CoachingInsight :=
  { user_id := uid
    insight_date := activity_date
    insight_type := "post_workout"
    content := p.dump
    prompt_version := PROMPT_VERSION
    activity_id := some activity_id }

/-- Embedding of `CoachingEngine.generate_post_workout_analysis`: same
call/retry/logging flow as the daily briefing, and on success the
best-effort linkage step runs before the insight is stored. -/
def generate_post_workout_analysis
    (llm : String → String → String → Except String LLMResponse)
    (parse : String → Except String ParsedResponse)
    (dailyModel : String) (existing : Bool)
    (systemPrompt userMessage : String) (uid activity_id activity_date : Int)
    (planned_session : Option Int) (plans : List PlannedSession) : PostOutcome :=
  if existing then
    { calls := [], logs := [], plans := plans, insight := none,
      err := some "Post-workout analysis already exists" }
  else
    match llm systemPrompt userMessage dailyModel with
    | .error e =>
      { calls := [(systemPrompt, userMessage, dailyModel)]
        logs := [mkPromptLog "post_workout" dailyModel none userMessage false (some e)]
        plans := plans
        insight := none
        err := some ("Failed to generate post-workout analysis: " ++ e) }
    | .ok r1 =>
      match parse r1.content with
      | .ok p =>
        { calls := [(systemPrompt, userMessage, dailyModel)]
          logs := [mkPromptLog "post_workout" dailyModel (some r1) userMessage true none]
          plans :=
            match planned_session with
            | some pid => link_activity_to_planned_session plans activity_id pid
            | none => plans
          insight := some (postInsight uid activity_id activity_date p)
          err := none }
      | .error _ =>
        match llm systemPrompt (userMessage ++ RETRY_SUFFIX) dailyModel with
        | .error e2 =>
          { calls := [(systemPrompt, userMessage, dailyModel),
              (systemPrompt, userMessage ++ RETRY_SUFFIX, dailyModel)]
            logs := [mkPromptLog "post_workout" dailyModel (some r1) userMessage false
              (some ("Retry also failed: " ++ e2))]
            plans := plans
            insight := none
            err := some ("Failed to generate post-workout analysis: Retry also failed: " ++ e2) }
        | .ok r2 =>
          match parse r2.content with
          | .ok p =>
            { calls := [(systemPrompt, userMessage, dailyModel),
                (systemPrompt, userMessage ++ RETRY_SUFFIX, dailyModel)]
              logs := [mkPromptLog "post_workout" dailyModel (some r2) userMessage true none]
              plans :=
                match planned_session with
                | some pid => link_activity_to_planned_session plans activity_id pid
                | none => plans
              insight := some (postInsight uid activity_id activity_date p)
              err := none }
          | .error e3 =>
            { calls := [(systemPrompt, userMessage, dailyModel),
                (systemPrompt, userMessage ++ RETRY_SUFFIX, dailyModel)]
              logs := [mkPromptLog "post_workout" dailyModel (some r2) userMessage false
                (some ("Retry also failed: " ++ e3))]
              plans := plans
              insight := none
              err := some ("Failed to generate post-workout analysis: Retry also failed: " ++ e3) }

/-- Whether the call-parse-retry flow of the engine produces a validated
response. -/
def llmAttemptsSucceed
    (llm : String → String → String → Except String LLMResponse)
    (parse : String → Except String ParsedResponse)
    (systemPrompt userMessage model : String) : Bool :=
  match llm systemPrompt userMessage model with
  | .error _ => false
  | .ok r1 =>
    match parse r1.content with
    | .ok _ => true
    | .error _ =>
      match llm systemPrompt (userMessage ++ RETRY_SUFFIX) model with
      | .error _ => false
      | .ok r2 =>
        match parse r2.content with
        | .ok _ => true
        | .error _ => false

/-- A failed lookup leaves the planned sessions untouched. -/
theorem link_noop_of_absent (activity_id pid : Int) :
    ∀ plans : List PlannedSession, (∀ p ∈ plans, p.id ≠ pid) →
    link_activity_to_planned_session plans activity_id pid = plans := by
  intro plans
  induction plans with
  | nil => intro _; rfl
  | cons p t ih =>
    intro hmiss
    have hp : ¬(p.id == pid) = true := by
      simp only [beq_iff_eq]
      exact hmiss p (List.mem_cons_self p t)
    have ht := ih fun q hq => hmiss q (List.mem_cons_of_mem p hq)
    unfold link_activity_to_planned_session at ht ⊢
    simp only [List.map_cons, if_neg hp, ht]

/-- C6 (confirmed): a failure of the best-effort linkage step — its lookup
finds no planned session with the requested id, the step's only failure mode
in the code, which makes it a silent no-op — never blocks persistence of the
post-workout `CoachingInsight`: the insight is stored precisely when the
LLM call/retry flow succeeds, independently of the linkage, and the planned
sessions are left untouched. -/
theorem linkage_never_blocks_insight
    (llm : String → String → String → Except String LLMResponse)
    (parse : String → Except String ParsedResponse)
    (dailyModel systemPrompt userMessage : String)
    (uid activity_id activity_date pid : Int) (plans : List PlannedSession)
    (hmiss : ∀ p ∈ plans, p.id ≠ pid) :
    (generate_post_workout_analysis llm parse dailyModel false systemPrompt
      userMessage uid activity_id activity_date (some pid) plans).plans = plans ∧
    ((generate_post_workout_analysis llm parse dailyModel false systemPrompt
        userMessage uid activity_id activity_date (some pid) plans).insight.isSome =
      llmAttemptsSucceed llm parse systemPrompt userMessage dailyModel) := by
  have hlink := link_noop_of_absent activity_id pid plans hmiss
  cases h1 : llm systemPrompt userMessage dailyModel with
  | error e =>
    constructor <;>
      simp [generate_post_workout_analysis, llmAttemptsSucceed, h1]
  | ok r1 =>
    cases h2 : parse r1.content with
    | ok p =>
      constructor <;>
        simp [generate_post_workout_analysis, llmAttemptsSucceed, h1, h2, hlink]
    | error e1 =>
      cases h3 : llm systemPrompt (userMessage ++ RETRY_SUFFIX) dailyModel with
      | error e2 =>
        constructor <;>
          simp [generate_post_workout_analysis, llmAttemptsSucceed, h1, h2, h3]
      | ok r2 =>
        cases h4 : parse r2.content with
        | ok p =>
          constructor <;>
            simp [generate_post_workout_analysis, llmAttemptsSucceed, h1, h2, h3, h4, hlink]
        | error e3 =>
          constructor <;>
            simp [generate_post_workout_analysis, llmAttemptsSucceed, h1, h2, h3, h4]

/-- A planned session whose id does not match the requested linkage id. -/
def planW : PlannedSession :=
  { id := 9, plan_id := 1, day_of_week := 0, sport := "gym", title := "Strength",
    duration_minutes := some 60, details := none, notes := none,
    completed := false, activity_id := none }

/-- Witness for `linkage_never_blocks_insight`: the linkage target id 5 is
absent (the only session has id 9), yet the insight is stored and the
session table is untouched. -/
theorem linkage_never_blocks_insight_witness :
    (generate_post_workout_analysis llmOracleOk parseOracleOk "m" false "sys"
      "msg" 1 42 20240101 (some 5) [planW]).plans = [planW] ∧
    (generate_post_workout_analysis llmOracleOk parseOracleOk "m" false "sys"
      "msg" 1 42 20240101 (some 5) [planW]).insight.isSome = true := by
  have hth := linkage_never_blocks_insight llmOracleOk parseOracleOk "m" "sys" "msg"
    1 42 20240101 5 [planW] (by decide)
  refine ⟨hth.1, ?_⟩
  rw [hth.2]
  rfl
